import Mathlib

/-!
Shallow embedding of the bubblewarp namespace-lifecycle tool
(src/namespace.rs, src/net.rs, src/up.rs, src/down.rs, src/main.rs).

Pure logic is translated directly; interactions with the operating system
(mount table, process table, external `ip`/`iptables`/`unshare`/`nsenter`
invocations, filesystem) are modelled by explicit environment records whose
fields stand for the results the kernel would return, so each Rust function
becomes a Lean function of its environment.
-/

namespace Bubblewarp

/-- The namespace kinds of `namespace.rs` (`enum Type { User, Pid, Mount, Net }`). -/
inductive NsType
  | User
  | Pid
  | Mount
  | Net
deriving DecidableEq, Repr, Fintype

/-- `Type::iter()` of strum's `EnumIter`: the variants in declaration order. -/
def nsIter : List NsType := [NsType.User, NsType.Pid, NsType.Mount, NsType.Net]

/-- `Type::COUNT` of strum's `EnumCount`. -/
def nsCount : Nat := 4

/-- `ToString for Type` in `namespace.rs`. -/
def NsType.toStr : NsType → String
  | NsType.User => "user"
  | NsType.Pid => "pid"
  | NsType.Mount => "mount"
  | NsType.Net => "net"

/-- `enum Status { Ready, Partial(HashSet<Type>), None }` of `namespace.rs`.
The `HashSet<Type>` is modelled as a duplicate-free `List NsType`: `status`
iterates the four distinct kinds once each, so the set it builds is exactly
the collected sublist of `nsIter`, and `HashSet::len` agrees with the list
length. -/
inductive Status
  | Ready
  | Partial (s : List NsType)
  | None
deriving DecidableEq

/-- `mount_point` of `namespace.rs`: `base_dir` with the kind's fixed name
pushed as a path component. -/
def mount_point (base_dir : String) (ns_type : NsType) : String :=
  match ns_type with
  | NsType.User => base_dir ++ "/user"
  | NsType.Pid => base_dir ++ "/pid"
  | NsType.Mount => base_dir ++ "/mount"
  | NsType.Net => base_dir ++ "/net"

/-- The `mounted_set` accumulated by `status` in `namespace.rs`: fold over
`Type::iter()`, inserting each kind for which `is_mounted` holds.  Each kind
occurs at most once in `nsIter`, so appending is `HashSet::insert`. -/
def mountedSet (mounted : NsType → Bool) : List NsType :=
  nsIter.foldl (fun acc t => if mounted t then acc ++ [t] else acc) []

/-- `status` of `namespace.rs`, parameterized by the result of `is_mounted`
for each kind (the function's only interaction with the system): build the
mounted set, then classify it by emptiness / full count. -/
def status (mounted : NsType → Bool) : Status :=
  if (mountedSet mounted).isEmpty then Status.None
  else if (mountedSet mounted).length = nsCount then Status.Ready
  else Status.Partial (mountedSet mounted)

/-- One entry of `Process::myself()?.mountinfo()?` as `is_mounted` reads it:
the filesystem type, the optional mount source, and the target path. -/
structure MountInfo where
  fs_type : String
  mount_source : Option String
  mount_point : String

/-- The filesystem/mount-table environment `is_mounted` consults: whether a
path exists, path canonicalization (`None` models a `canonicalize` failure,
e.g. a dangling entry), and the live mount table. -/
structure FsEnv where
  pathExists : String → Bool
  canon : String → Option String
  mounts : List MountInfo

/-- `path.canonicalize()` with fallback to the original path on failure, as in
`if let Ok(canon) = ns_mount_point.canonicalize() { ns_mount_point = canon }`. -/
def canonOr (env : FsEnv) (p : String) : String := (env.canon p).getD p

/-- Body of the mount-table loop in `is_mounted` (`namespace.rs`): an entry
matches when its type and source are both `"nsfs"` and its canonicalized
target equals `mp`; an entry whose target fails to canonicalize is skipped. -/
def nsfsEntryMatches (env : FsEnv) (mp : String) (m : MountInfo) : Bool :=
  decide (m.fs_type = "nsfs") && decide (m.mount_source = some "nsfs") &&
    (match env.canon m.mount_point with
     | Option.none => false
     | Option.some dst => decide (dst = mp))

/-- `is_mounted` of `namespace.rs`: false when the mount-point file does not
exist; otherwise scan the mount table for a matching `nsfs` entry. -/
def is_mounted (env : FsEnv) (base_dir : String) (ns_type : NsType) : Bool :=
  if env.pathExists (mount_point base_dir ns_type) = false then false
  else
    env.mounts.any
      (nsfsEntryMatches env (canonOr env (mount_point base_dir ns_type)))

/-- Checks that a `Status`, when of the `Partial` shape, carries a
duplicate-free set of 1 to 3 kinds; `true` on the other two shapes. -/
def partialSizeOk : Status → Bool
  | Status.Partial s => decide s.Nodup && decide (1 ≤ s.length) && decide (s.length ≤ 3)
  | _ => true

/-- C1: for every mount state, `status` returns `None` exactly when no kind is
mounted, `Ready` exactly when all four kinds are mounted, and `Partial s` only
with `s` a duplicate-free set of between 1 and 3 kinds; the cases are mutually
exclusive (the constructors are distinct and the characterizing right-hand
sides cannot hold together) and exhaustive over the power set of the four
kinds (final disjunction). -/
theorem status_classification :
    ∀ mounted : NsType → Bool,
      ((status mounted = Status.None) ↔ ∀ t, mounted t = false) ∧
      ((status mounted = Status.Ready) ↔ ∀ t, mounted t = true) ∧
      partialSizeOk (status mounted) = true ∧
      (status mounted = Status.None ∨ status mounted = Status.Ready ∨
        status mounted = Status.Partial (mountedSet mounted)) := by
  decide

/-- A mount-table entry passes the `is_mounted` filter iff its type and source
are `"nsfs"` and its target canonicalizes to the given path. -/
theorem nsfsEntryMatches_eq_true (env : FsEnv) (mp : String) (m : MountInfo) :
    nsfsEntryMatches env mp m = true ↔
      (m.fs_type = "nsfs" ∧ m.mount_source = some "nsfs" ∧
        env.canon m.mount_point = some mp) := by
  unfold nsfsEntryMatches
  rcases hc : env.canon m.mount_point with _ | dst
  · simp [hc]
  · simp [hc, and_assoc]

/-- C6: `is_mounted` returns false when the mount-point file does not exist;
otherwise it returns true exactly when the live mount table has an entry with
type and source both `"nsfs"` whose canonicalized target equals the
canonicalized mount-point path (entries whose targets fail to canonicalize are
skipped — `env.canon m.mount_point = none` entries never witness the
existential, and cause no error since the function is `Bool`-valued). -/
theorem is_mounted_characterization (env : FsEnv) (base_dir : String) (t : NsType) :
    (env.pathExists (mount_point base_dir t) = false →
      is_mounted env base_dir t = false) ∧
    (env.pathExists (mount_point base_dir t) = true →
      (is_mounted env base_dir t = true ↔
        ∃ m ∈ env.mounts,
          m.fs_type = "nsfs" ∧ m.mount_source = some "nsfs" ∧
            env.canon m.mount_point =
              some (canonOr env (mount_point base_dir t)))) := by
  constructor
  · intro h
    simp [is_mounted, h]
  · intro h
    rw [is_mounted, if_neg (by simp [h])]
    rw [List.any_eq_true]
    constructor
    · rintro ⟨m, hm, hmatch⟩
      exact ⟨m, hm, (nsfsEntryMatches_eq_true env _ m).1 hmatch⟩
    · rintro ⟨m, hm, hprops⟩
      exact ⟨m, hm, (nsfsEntryMatches_eq_true env _ m).2 hprops⟩

/-- A concrete filesystem environment: every path exists, canonicalization is
the identity, and the mount table holds one `nsfs` entry at `/base/user`. -/
def fsEnvOneNs : FsEnv :=
  ⟨fun _ => true, fun p => Option.some p,
    [⟨"nsfs", Option.some "nsfs", "/base/user"⟩]⟩

/-- Witness for C6 at the concrete environment `fsEnvOneNs`. -/
theorem is_mounted_characterization_witness :
    is_mounted fsEnvOneNs "/base" NsType.User = true ↔
      ∃ m ∈ fsEnvOneNs.mounts,
        m.fs_type = "nsfs" ∧ m.mount_source = some "nsfs" ∧
          fsEnvOneNs.canon m.mount_point =
            some (canonOr fsEnvOneNs (mount_point "/base" NsType.User)) :=
  (is_mounted_characterization fsEnvOneNs "/base" NsType.User).2 rfl

/-- Rust's `str::split(sep)` for a single-character separator, over the list
of characters: keeps empty fragments, and splitting the empty string yields
one empty fragment. -/
def splitChar (sep : Char) : List Char → List (List Char)
  | [] => [[]]
  | c :: rest =>
    let r := splitChar sep rest
    if c = sep then [] :: r
    else
      match r with
      | [] => [[c]]
      | w :: ws => (c :: w) :: ws

/-- `parse_iface_name` of `net.rs`, on the decoded stdout characters: split on
spaces, report the empty-stdout error if the split is empty, then require the
first token to be `default`, a `dev` token to occur, and a token to follow it,
reporting the unexpected-output error otherwise; on success return the token
after `dev`.  (The Rust `||` chain short-circuits, so the three checks are an
equivalent cascade; both failure messages are its two `bail!` literals.) -/
def parse_iface_name (stdout : List Char) : Except String (List Char) :=
  let parts := splitChar ' ' stdout
  if parts = [] then
    Except.error "Empty stdout when running ip route show default!"
  else if parts.headD [] ≠ "default".data then
    Except.error "Unexpected output from ip route show default"
  else
    match parts.findIdx? (fun e => e = "dev".data) with
    | Option.none => Except.error "Unexpected output from ip route show default"
    | Option.some i =>
      if parts.length ≤ i + 1 then
        Except.error "Unexpected output from ip route show default"
      else Except.ok (parts.getD (i + 1) [])

instance {ε α : Type} [DecidableEq ε] [DecidableEq α] : DecidableEq (Except ε α)
  | Except.error a, Except.error b =>
    if h : a = b then isTrue (by rw [h])
    else isFalse (by intro he; cases he; exact h rfl)
  | Except.error _, Except.ok _ => isFalse (by intro he; cases he)
  | Except.ok _, Except.error _ => isFalse (by intro he; cases he)
  | Except.ok a, Except.ok b =>
    if h : a = b then isTrue (by rw [h])
    else isFalse (by intro he; cases he; exact h rfl)

/-- Splitting any character list on a separator yields at least one fragment:
every branch of `splitChar` produces a non-empty list. -/
theorem splitChar_ne_nil (sep : Char) (l : List Char) : splitChar sep l ≠ [] := by
  cases l with
  | nil => simp [splitChar]
  | cons c rest =>
    rw [splitChar]
    by_cases h : c = sep
    · simp [h]
    · simp only [if_neg h]
      rcases splitChar sep rest with _ | ⟨w, ws⟩ <;> simp

/-- When a token list has no `dev` token, `findIdx?` over it returns `none`. -/
theorem findIdx_dev_none (parts : List (List Char)) (h : "dev".data ∉ parts) :
    parts.findIdx? (fun e => e = "dev".data) = Option.none := by
  rw [List.findIdx?_eq_none_iff]
  intro x hx
  simp only [decide_eq_false_iff_not]
  intro he
  subst he
  exact h hx

/-- C4: `parse_iface_name` returns `eth0` on the canonical
`ip route show default` line; it fails with the unexpected-output `ParseError`
whenever the first space-separated token is not `default`, and whenever no
`dev` token occurs. -/
theorem parse_iface_name_cases :
    parse_iface_name "default via 10.0.0.1 dev eth0 proto static".data =
      Except.ok "eth0".data ∧
    (∀ s : List Char, (splitChar ' ' s).headD [] ≠ "default".data →
      parse_iface_name s =
        Except.error "Unexpected output from ip route show default") ∧
    (∀ s : List Char, "dev".data ∉ splitChar ' ' s →
      parse_iface_name s =
        Except.error "Unexpected output from ip route show default") := by
  refine ⟨by decide, ?_, ?_⟩
  · intro s h
    simp only [parse_iface_name]
    rw [if_neg (splitChar_ne_nil ' ' s), if_pos h]
  · intro s h
    simp only [parse_iface_name]
    rw [if_neg (splitChar_ne_nil ' ' s)]
    by_cases hh : (splitChar ' ' s).headD [] ≠ "default".data
    · rw [if_pos hh]
    · rw [if_neg hh, findIdx_dev_none _ h]

/-- Witness for C4 at concrete malformed inputs: a line whose first token is
not `default`, and a line with no `dev` token. -/
theorem parse_iface_name_cases_witness :
    parse_iface_name "foo via dev eth0".data =
      Except.error "Unexpected output from ip route show default" ∧
    parse_iface_name "default via eth0".data =
      Except.error "Unexpected output from ip route show default" :=
  ⟨parse_iface_name_cases.2.1 "foo via dev eth0".data (by decide),
   parse_iface_name_cases.2.2 "default via eth0".data (by decide)⟩

/-- C10: the empty-stdout branch of `parse_iface_name` is unreachable —
splitting any input on spaces yields at least one token, so no input produces
the empty-stdout error; in particular the empty input fails through the
unexpected-output branch.  The embedding is a total function (no panic or
out-of-bounds access: the only indexing, `parts.getD (i + 1)`, is guarded by
the length test). -/
theorem parse_iface_name_empty_branch_unreachable :
    (∀ l : List Char, splitChar ' ' l ≠ []) ∧
    (∀ s : List Char,
      parse_iface_name s ≠
        Except.error "Empty stdout when running ip route show default!") ∧
    parse_iface_name "".data =
      Except.error "Unexpected output from ip route show default" := by
  refine ⟨splitChar_ne_nil ' ', ?_, by decide⟩
  intro s
  simp only [parse_iface_name]
  rw [if_neg (splitChar_ne_nil ' ' s)]
  split
  · decide
  · split
    · decide
    · split
      · decide
      · simp

/-- argv of the first `iptables` invocation of `setup_external_forward`
(`net.rs`): append the NAT masquerade rule for the private subnet. -/
def setup_masquerade_args (iface_name : String) : List String :=
  ["-t", "nat", "-A", "POSTROUTING", "-s", "10.200.0.2/24",
   "-o", iface_name, "-j", "MASQUERADE"]

/-- argv of the second `iptables` invocation of `setup_external_forward`. -/
def setup_forward_in_args (iface_name : String) : List String :=
  ["-A", "FORWARD", "-i", iface_name, "-o", "veth-warp", "-j", "ACCEPT"]

/-- argv of the third `iptables` invocation of `setup_external_forward`. -/
def setup_forward_out_args (iface_name : String) : List String :=
  ["-A", "FORWARD", "-o", iface_name, "-i", "veth-warp", "-j", "ACCEPT"]

/-- First rule string built by `cleanup_external_networking` (`down.rs`): the
masquerade rule it deletes. -/
def cleanup_masquerade_rule (iface_name : String) : String :=
  "POSTROUTING -t nat -s 10.200.0.0/24 -o " ++ iface_name ++ " -j MASQUERADE"

/-- The other two rule strings built by `cleanup_external_networking`. -/
def cleanup_forward_rules (iface_name : String) : List String :=
  ["FORWARD -i " ++ iface_name ++ " -o veth-warp -j ACCEPT",
   "FORWARD -o " ++ iface_name ++ " -i veth-warp -j ACCEPT"]

/-- argv of one `iptables` invocation of `delete_iptables_rule` (`down.rs`):
`-D` followed by the rule string split on single spaces. -/
def delete_iptables_args (rule : String) : List (List Char) :=
  "-D".data :: splitChar ' ' rule.data

/-- The argument following the first occurrence of `flag` in an argv. -/
def argAfter {α : Type} [DecidableEq α] (flag : α) (args : List α) : Option α :=
  match args.findIdx? (fun a => a = flag) with
  | Option.none => Option.none
  | Option.some i => args[i + 1]?

/-- C2: the masquerade rule inserted by `setup_external_forward` uses source
subnet `10.200.0.2/24` (for every interface name), while the masquerade rule
deleted by `cleanup_external_networking` uses source subnet `10.200.0.0/24`
(shown at the representative interface `eth0`, after the rule string passes
through `delete_iptables_rule`'s split); the two subnet literals differ, and
both are preserved exactly in the rule specifications. -/
theorem nat_masquerade_subnet_asymmetry :
    (∀ iface_name : String,
      argAfter "-s" (setup_masquerade_args iface_name) = some "10.200.0.2/24") ∧
    argAfter "-s".data (delete_iptables_args (cleanup_masquerade_rule "eth0")) =
      some "10.200.0.0/24".data ∧
    ("10.200.0.2/24" : String) ≠ "10.200.0.0/24" := by
  refine ⟨fun iface_name => rfl, by decide, by decide⟩

/-- argv of the `unshare` invocation of `create_namespaces` (`up.rs`), in the
order the code appends the arguments.  `-r` is util-linux's `--map-root-user`:
map the current effective user and group to the superuser with a single-entry
range; the invocation additionally passes the range maps
`--map-users=0,0,1200` and `--map-groups=0,0,1200`. -/
def unshare_args (base_dir : String) : List String :=
  ["--fork", "-r", "--mount-proc",
   "--map-users=0,0,1200", "--map-groups=0,0,1200",
   "--pid=" ++ mount_point base_dir NsType.Pid,
   "--user=" ++ mount_point base_dir NsType.User,
   "--net=" ++ mount_point base_dir NsType.Net,
   "--mount=" ++ mount_point base_dir NsType.Mount,
   "--", "tini", "--", "sleep", "infinity"]

/-- C9: for every base directory, the `unshare` invocation of
`create_namespaces` carries the `-r` mapping flag (remap the calling user and
group to root with a single-entry range), binds the new pid/user/net/mount
namespaces to the four mount-point paths under the base directory, and runs
`tini -- sleep infinity` (a minimal init supervising `sleep infinity`) as the
namespace's pid 1 (the argument list ends with the `--`-separated command). -/
theorem create_namespaces_unshare_invocation :
    ∀ base_dir : String,
      "-r" ∈ unshare_args base_dir ∧
      ("--pid=" ++ mount_point base_dir NsType.Pid) ∈ unshare_args base_dir ∧
      ("--user=" ++ mount_point base_dir NsType.User) ∈ unshare_args base_dir ∧
      ("--net=" ++ mount_point base_dir NsType.Net) ∈ unshare_args base_dir ∧
      ("--mount=" ++ mount_point base_dir NsType.Mount) ∈ unshare_args base_dir ∧
      (unshare_args base_dir).drop 9 = ["--", "tini", "--", "sleep", "infinity"] := by
  intro base_dir
  unfold unshare_args
  refine ⟨?_, ?_, ?_, ?_, ?_, rfl⟩
  · exact List.Mem.tail _ (List.Mem.head _)
  · exact List.Mem.tail _ (List.Mem.tail _ (List.Mem.tail _ (List.Mem.tail _
      (List.Mem.tail _ (List.Mem.head _)))))
  · exact List.Mem.tail _ (List.Mem.tail _ (List.Mem.tail _ (List.Mem.tail _
      (List.Mem.tail _ (List.Mem.tail _ (List.Mem.head _))))))
  · exact List.Mem.tail _ (List.Mem.tail _ (List.Mem.tail _ (List.Mem.tail _
      (List.Mem.tail _ (List.Mem.tail _ (List.Mem.tail _ (List.Mem.head _)))))))
  · exact List.Mem.tail _ (List.Mem.tail _ (List.Mem.tail _ (List.Mem.tail _
      (List.Mem.tail _ (List.Mem.tail _ (List.Mem.tail _ (List.Mem.tail _
        (List.Mem.head _))))))))

/-- The five state-changing steps of `setup_private_networking` (`net.rs`), in
program order: create the veth pair (with the namespace-side peer placed into
the net-namespace mount point), assign `10.200.0.1/24` to the host endpoint,
bring it up, then inside the net namespace assign `10.200.0.2/24` to the peer
and bring it up. -/
inductive NetAction
  | createVethPair
  | hostAddrAdd
  | hostLinkUp
  | nsAddrAdd
  | nsLinkUp
deriving DecidableEq

/-- Environment of `setup_private_networking`: the interface names
`getifaddrs` reports on the host, and the success of each external `ip`
command. -/
structure PrivNetEnv where
  ifaceNames : List String
  linkAddOk : Bool
  addrAddOk : Bool
  linkUpOk : Bool
  nsAddrAddOk : Bool
  nsLinkUpOk : Bool

/-- `setup_private_networking` of `net.rs`: return immediately when an
interface named `veth-warp` already exists; otherwise issue the five `ip`
commands in order, stopping at the first failure.  The returned list records
the commands issued. -/
def setup_private_networking (env : PrivNetEnv) :
    Except String Unit × List NetAction :=
  if env.ifaceNames.any (fun n => n = "veth-warp") then
    (Except.ok (), [])
  else if env.linkAddOk = false then
    (Except.error "ip link add failed", [NetAction.createVethPair])
  else if env.addrAddOk = false then
    (Except.error "ip addr add failed",
      [NetAction.createVethPair, NetAction.hostAddrAdd])
  else if env.linkUpOk = false then
    (Except.error "ip link set up failed",
      [NetAction.createVethPair, NetAction.hostAddrAdd, NetAction.hostLinkUp])
  else if env.nsAddrAddOk = false then
    (Except.error "ip addr add inside namespace failed",
      [NetAction.createVethPair, NetAction.hostAddrAdd, NetAction.hostLinkUp,
       NetAction.nsAddrAdd])
  else if env.nsLinkUpOk = false then
    (Except.error "ip link set up inside namespace failed",
      [NetAction.createVethPair, NetAction.hostAddrAdd, NetAction.hostLinkUp,
       NetAction.nsAddrAdd, NetAction.nsLinkUp])
  else
    (Except.ok (),
      [NetAction.createVethPair, NetAction.hostAddrAdd, NetAction.hostLinkUp,
       NetAction.nsAddrAdd, NetAction.nsLinkUp])

/-- C7: `setup_private_networking` is idempotent — when an interface named
`veth-warp` already exists on the host, it returns success immediately and
issues no command: no veth pair creation, no address assignment, no interface
state change. -/
theorem setup_private_networking_idempotent (env : PrivNetEnv)
    (h : "veth-warp" ∈ env.ifaceNames) :
    setup_private_networking env = (Except.ok (), []) := by
  unfold setup_private_networking
  rw [if_pos]
  rw [List.any_eq_true]
  exact ⟨"veth-warp", h, by simp⟩

/-- Witness for C7 at a concrete host interface table. -/
theorem setup_private_networking_idempotent_witness :
    setup_private_networking
      ⟨["lo", "eth0", "veth-warp"], true, true, true, true, true⟩ =
      (Except.ok (), []) :=
  setup_private_networking_idempotent
    ⟨["lo", "eth0", "veth-warp"], true, true, true, true, true⟩ (by decide)

/-- One poll-step observation of the `unshare` helper process in
`create_namespaces` (`up.rs`): whether the helper is still alive, how many
tasks `unshare_proc.tasks()` yields, and the single task's child pids. -/
structure PollObs where
  alive : Bool
  taskCount : Nat
  children : List Nat

/-- The failure modes of `create_namespaces` (its `bail!` branches). -/
inductive CreateNsError
  | unshareExited
  | wrongTaskCount (n : Nat)
  | wrongChildCount (n : Nat)
  | timedOut
  | initDead
deriving DecidableEq

/-- The child-discovery loop of `create_namespaces` (`up.rs`), entered at poll
iteration `k`: bail if the helper exited, bail unless it has exactly one task,
return the single child if one appeared (bail if more than one), otherwise
check the 1-second bound and sleep 25 ms before the next iteration.  Elapsed
time when the timeout test runs at iteration `k` is `25 * k` ms (`k` sleeps of
the 25 ms interval since `start_time` was taken), so the test is
`1000 < 25 * k`. -/
def createNsLoop (obs : Nat → PollObs) (k : Nat) : Except CreateNsError Nat :=
  if (obs k).alive = false then Except.error CreateNsError.unshareExited
  else if (obs k).taskCount ≠ 1 then
    Except.error (CreateNsError.wrongTaskCount (obs k).taskCount)
  else if (obs k).children ≠ [] then
    if (obs k).children.length ≠ 1 then
      Except.error (CreateNsError.wrongChildCount (obs k).children.length)
    else Except.ok ((obs k).children.headD 0)
  else if h : 1000 < 25 * k then Except.error CreateNsError.timedOut
  else createNsLoop obs (k + 1)
termination_by 41 - k
decreasing_by omega

/-- Environment of the discovery phase of `create_namespaces`: the helper
observations, and whether the discovered init (`tini`) process is alive. -/
structure CreateNsEnv where
  obs : Nat → PollObs
  tiniAlive : Bool

/-- `create_namespaces` after spawning `unshare` (`up.rs`): run the discovery
loop from iteration 0; on success require the discovered init process to be
alive, and return its pid. -/
def create_namespaces_poll (env : CreateNsEnv) : Except CreateNsError Nat :=
  match createNsLoop env.obs 0 with
  | Except.error e => Except.error e
  | Except.ok pid =>
    if env.tiniAlive = false then Except.error CreateNsError.initDead
    else Except.ok pid

/-- When the helper stays alive with one task and no child ever appears, the
discovery loop times out, from any starting iteration. -/
theorem createNsLoop_timeout (obs : Nat → PollObs)
    (h : ∀ j, (obs j).alive = true ∧ (obs j).taskCount = 1 ∧
      (obs j).children = []) :
    ∀ n k, 41 - k ≤ n → createNsLoop obs k = Except.error CreateNsError.timedOut := by
  intro n
  induction n with
  | zero =>
    intro k hk
    obtain ⟨h1, h2, h3⟩ := h k
    rw [createNsLoop]
    simp [h1, h2, h3]
    omega
  | succ n ih =>
    intro k hk
    obtain ⟨h1, h2, h3⟩ := h k
    rw [createNsLoop]
    by_cases ht : 1000 < 25 * k
    · simp [h1, h2, h3, ht]
    · simp [h1, h2, h3, ht]
      exact ih (k + 1) (by omega)

/-- C5: if the helper's init child never appears within the 1-second polling
bound (25 ms interval), `create_namespaces` fails with the Timeout error and
returns no init process handle; it also fails rather than returning a handle
when the helper process exits, when the helper has more than one task, and
when the single task has more than one child (each shown at the first poll
iteration, where the loop observes it). -/
theorem create_namespaces_failure_modes (env : CreateNsEnv) :
    ((∀ j, (env.obs j).alive = true ∧ (env.obs j).taskCount = 1 ∧
        (env.obs j).children = []) →
      create_namespaces_poll env = Except.error CreateNsError.timedOut ∧
        ∀ pid, create_namespaces_poll env ≠ Except.ok pid) ∧
    ((env.obs 0).alive = false →
      create_namespaces_poll env = Except.error CreateNsError.unshareExited) ∧
    ((env.obs 0).alive = true → (env.obs 0).taskCount ≠ 1 →
      create_namespaces_poll env =
        Except.error (CreateNsError.wrongTaskCount (env.obs 0).taskCount)) ∧
    ((env.obs 0).alive = true → (env.obs 0).taskCount = 1 →
      2 ≤ (env.obs 0).children.length →
      create_namespaces_poll env =
        Except.error (CreateNsError.wrongChildCount (env.obs 0).children.length)) := by
  refine ⟨?_, ?_, ?_, ?_⟩
  · intro h
    have hloop := createNsLoop_timeout env.obs h 41 0 (by omega)
    constructor
    · rw [create_namespaces_poll, hloop]
    · intro pid
      rw [create_namespaces_poll, hloop]
      intro hcontra
      cases hcontra
  · intro h1
    rw [create_namespaces_poll, createNsLoop]
    simp [h1]
  · intro h1 h2
    rw [create_namespaces_poll, createNsLoop]
    simp [h1, h2]
  · intro h1 h2 h3
    have hne : (env.obs 0).children ≠ [] := by
      intro hnil
      rw [hnil] at h3
      simp at h3
    have hlen : (env.obs 0).children.length ≠ 1 := by omega
    rw [create_namespaces_poll, createNsLoop]
    simp [h1, h2, hne, hlen]

/-- Witness for C5: a helper that stays alive with one task and never gains a
child drives `create_namespaces` into the Timeout error. -/
theorem create_namespaces_failure_modes_witness :
    create_namespaces_poll ⟨fun _ => ⟨true, 1, []⟩, true⟩ =
      Except.error CreateNsError.timedOut :=
  ((create_namespaces_failure_modes ⟨fun _ => ⟨true, 1, []⟩, true⟩).1
    (fun _ => ⟨rfl, rfl, rfl⟩)).1

/-- The externally visible steps of the Construction Workflow `up` (`up.rs`),
in program order. -/
inductive UpAction
  | createBaseDir
  | selfBindMount
  | createNamespaces
  | createEtcOverlay
  | setupPrivateNet
  | setupExternalNet
  | spawnInside (name : String)
  | settleSleep
deriving DecidableEq

/-- Environment of `up` (`up.rs`): the results of its queries and the success
of its fallible steps.  `statusResult` is what `namespace::status` returns
(the mount-table read is assumed to succeed; an I/O failure there aborts `up`
before any construction step either way). -/
structure UpEnv where
  baseDirExists : Bool
  createDirOk : Bool
  hasSelfBindMount : Bool
  bindMountOk : Bool
  statusResult : Status
  readyInitPid : Option Nat
  createNs : Except CreateNsError Nat
  overlayOk : Bool
  privNetOk : Bool
  extNetOk : Bool
  spawnWarpOk : Bool
  spawnDantedOk : Bool

/-- The steps of `up` performed before the status check: create the base
directory when absent, and self-bind-mount it when not already so. -/
def upBaseActs (env : UpEnv) : List UpAction :=
  (if env.baseDirExists then [] else [UpAction.createBaseDir]) ++
    (if env.hasSelfBindMount then [] else [UpAction.selfBindMount])

/-- The tail of `up` once an init process is in hand (`up.rs` lines 44-55):
overlay mount, private then external networking, spawn `warp-svc`, settle
delay, spawn `danted`; each fallible step aborts the workflow. -/
def upTail (env : UpEnv) (acts : List UpAction) :
    Except String Unit × List UpAction :=
  if env.overlayOk = false then
    (Except.error "failed to create /etc overlay",
      acts ++ [UpAction.createEtcOverlay])
  else if env.privNetOk = false then
    (Except.error "failed to set up private networking",
      acts ++ [UpAction.createEtcOverlay, UpAction.setupPrivateNet])
  else if env.extNetOk = false then
    (Except.error "failed to set up external networking",
      acts ++ [UpAction.createEtcOverlay, UpAction.setupPrivateNet,
        UpAction.setupExternalNet])
  else if env.spawnWarpOk = false then
    (Except.error "failed to spawn warp-svc",
      acts ++ [UpAction.createEtcOverlay, UpAction.setupPrivateNet,
        UpAction.setupExternalNet, UpAction.spawnInside "warp-svc"])
  else if env.spawnDantedOk = false then
    (Except.error "failed to spawn danted",
      acts ++ [UpAction.createEtcOverlay, UpAction.setupPrivateNet,
        UpAction.setupExternalNet, UpAction.spawnInside "warp-svc",
        UpAction.settleSleep, UpAction.spawnInside "/usr/sbin/danted"])
  else
    (Except.ok (),
      acts ++ [UpAction.createEtcOverlay, UpAction.setupPrivateNet,
        UpAction.setupExternalNet, UpAction.spawnInside "warp-svc",
        UpAction.settleSleep, UpAction.spawnInside "/usr/sbin/danted"])

/-- `up` of `up.rs`: ensure the base directory and its private self bind
mount, query the status, and dispatch — `Ready` continues only when the init
process is found, `Partial` fails fatally asking for the down command,
`None` creates the namespaces and continues. -/
def up (env : UpEnv) : Except String Unit × List UpAction :=
  if env.baseDirExists = false ∧ env.createDirOk = false then
    (Except.error "failed to create base directory", [UpAction.createBaseDir])
  else if env.hasSelfBindMount = false ∧ env.bindMountOk = false then
    (Except.error "failed to self bind mount base directory",
      (if env.baseDirExists then [] else [UpAction.createBaseDir]) ++
        [UpAction.selfBindMount])
  else
    match env.statusResult with
    | Status.Ready =>
      match env.readyInitPid with
      | Option.some _ => upTail env (upBaseActs env)
      | Option.none =>
        (Except.error "Namespaces already mounted, but init process is dead. Try calling the down command first",
          upBaseActs env)
    | Status.Partial _ =>
      (Except.error "Namespaces partially mounted! Try calling the down command first",
        upBaseActs env)
    | Status.None =>
      match env.createNs with
      | Except.error _ =>
        (Except.error "failed to create namespaces",
          upBaseActs env ++ [UpAction.createNamespaces])
      | Except.ok _ => upTail env (upBaseActs env ++ [UpAction.createNamespaces])

/-- The steps taken before the status check are only base-directory
preparation: creating the directory and self-bind-mounting it. -/
theorem mem_upBaseActs (env : UpEnv) :
    ∀ a ∈ upBaseActs env,
      a = UpAction.createBaseDir ∨ a = UpAction.selfBindMount := by
  intro a ha
  unfold upBaseActs at ha
  rw [List.mem_append] at ha
  rcases ha with h | h
  · split at h <;> simp_all
  · split at h <;> simp_all

/-- C3: whenever `up` reaches the status check (the base-directory steps did
not already abort it) and observes `Partial s`, it fails fatally with the
recovery-required message telling the caller to run the down command first,
and the only steps it has performed are base-directory preparation — no
namespace creation, no overlay mount, no networking setup and no process
spawn. -/
theorem up_partial_fails_fatally (env : UpEnv) (s : List NsType)
    (hbd : env.baseDirExists = true ∨ env.createDirOk = true)
    (hbm : env.hasSelfBindMount = true ∨ env.bindMountOk = true)
    (hs : env.statusResult = Status.Partial s) :
    up env =
      (Except.error "Namespaces partially mounted! Try calling the down command first",
        upBaseActs env) ∧
    ∀ a ∈ upBaseActs env,
      a = UpAction.createBaseDir ∨ a = UpAction.selfBindMount := by
  have h1 : ¬(env.baseDirExists = false ∧ env.createDirOk = false) := by
    rintro ⟨ha, hb⟩
    rcases hbd with h | h
    · rw [ha] at h; cases h
    · rw [hb] at h; cases h
  have h2 : ¬(env.hasSelfBindMount = false ∧ env.bindMountOk = false) := by
    rintro ⟨ha, hb⟩
    rcases hbm with h | h
    · rw [ha] at h; cases h
    · rw [hb] at h; cases h
  refine ⟨?_, mem_upBaseActs env⟩
  rw [up, if_neg h1, if_neg h2, hs]

/-- A concrete environment whose status query reports one mounted kind. -/
def upEnvPartialOne : UpEnv :=
  ⟨true, true, false, true, Status.Partial [NsType.User], Option.none,
    Except.error CreateNsError.timedOut, true, true, true, true, true⟩

/-- Witness for C3 at a concrete environment observing `Partial {User}`. -/
theorem up_partial_fails_fatally_witness :
    up upEnvPartialOne =
      (Except.error "Namespaces partially mounted! Try calling the down command first",
        upBaseActs upEnvPartialOne) ∧
    ∀ a ∈ upBaseActs upEnvPartialOne,
      a = UpAction.createBaseDir ∨ a = UpAction.selfBindMount :=
  up_partial_fails_fatally upEnvPartialOne [NsType.User]
    (Or.inl rfl) (Or.inr rfl) rfl

/-- The externally visible operations of the Destruction Workflow `down`
(`down.rs`). -/
inductive DownAction
  | sigterm (pid : Nat)
  | umountProcInside
  | umountEtcInside
  | deleteNsVeth
  | deleteIptablesRules (iface : String)
  | deleteHostVeth
  | unmountNs (t : NsType)
  | umountBaseDir
deriving DecidableEq

/-- Environment of `down` (`down.rs`): mount state consulted through
`is_mounted`, the `find_process_in_namespace` lookups, whether `SIGTERM`
delivery succeeds, the host interface table, the `default_route_iface_name`
result, and the success of the host-side veth deletion and of each namespace
unmount.  Best-effort steps whose results the code discards (`let _ = ...`)
need no success flag. -/
structure DownEnv where
  fs : FsEnv
  findProc : String → Option Nat
  killOk : Nat → Bool
  ifaceNames : List String
  defaultRoute : Except String String
  hostVethDeleteOk : Bool
  unmountOk : NsType → Bool

/-- Sequencing of two workflow steps: propagate the first failure, keep the
actions performed so far. -/
def seqStep (r : Except String Unit × List DownAction)
    (next : Unit → Except String Unit × List DownAction) :
    Except String Unit × List DownAction :=
  match r with
  | (Except.error e, acts) => (Except.error e, acts)
  | (Except.ok _, acts) =>
    match next () with
    | (r2, acts2) => (r2, acts ++ acts2)

/-- `kill_process` of `down.rs`: SIGTERM the process found by
`find_process_in_namespace`, when there is one; propagate a `kill` failure. -/
def kill_process (env : DownEnv) (name : String) :
    Except String Unit × List DownAction :=
  match env.findProc name with
  | Option.none => (Except.ok (), [])
  | Option.some pid =>
    if env.killOk pid = false then
      (Except.error "kill failed", [DownAction.sigterm pid])
    else (Except.ok (), [DownAction.sigterm pid])

/-- `clean_mount_namespace` of `down.rs`: best-effort unmount of `/proc` and
`/etc` inside the mount namespace; both results are discarded. -/
def clean_mount_namespace : Except String Unit × List DownAction :=
  (Except.ok (), [DownAction.umountProcInside, DownAction.umountEtcInside])

/-- `cleanup_external_networking` of `down.rs`: recompute the host default
interface (propagating its parse/query failure), then delete the three
NAT/forward rules, looping delete-by-specification until the kernel reports no
match (the loops always terminate and their failures are the loop exits, so
they are one action here). -/
def cleanup_external_networking (env : DownEnv) :
    Except String Unit × List DownAction :=
  match env.defaultRoute with
  | Except.error e => (Except.error e, [])
  | Except.ok iface => (Except.ok (), [DownAction.deleteIptablesRules iface])

/-- `cleanup_private_networking` of `down.rs`: when the net namespace is
mounted, best-effort-delete the namespace-side veth endpoint; then, when the
host-side `veth-warp` interface exists, delete it, failing loudly if that
deletion fails. -/
def cleanup_private_networking (env : DownEnv) (base_dir : String) :
    Except String Unit × List DownAction :=
  seqStep
    (if is_mounted env.fs base_dir NsType.Net then
      (Except.ok (), [DownAction.deleteNsVeth])
    else (Except.ok (), []))
    fun _ =>
      if env.ifaceNames.any (fun n => n = "veth-warp") then
        if env.hostVethDeleteOk = false then
          (Except.error "Failed to delete private veth network interface",
            [DownAction.deleteHostVeth])
        else (Except.ok (), [DownAction.deleteHostVeth])
      else (Except.ok (), [])

/-- The loop body of `unmount_namespaces` (`down.rs`) over the remaining
kinds: unmount each currently mounted kind, propagating the first failure. -/
def unmountNsList (env : DownEnv) (base_dir : String) :
    List NsType → Except String Unit × List DownAction
  | [] => (Except.ok (), [])
  | t :: rest =>
    if is_mounted env.fs base_dir t then
      if env.unmountOk t = false then
        (Except.error "Unmounting persistent namespace", [DownAction.unmountNs t])
      else
        seqStep (Except.ok (), [DownAction.unmountNs t]) fun _ =>
          unmountNsList env base_dir rest
    else unmountNsList env base_dir rest

/-- `unmount_namespaces` of `down.rs`: iterate `Type::iter()`. -/
def unmount_namespaces (env : DownEnv) (base_dir : String) :
    Except String Unit × List DownAction :=
  unmountNsList env base_dir nsIter

/-- `down` of `down.rs`: terminate the supervised processes, clean the mount
namespace if mounted, tear down external networking if the net namespace is
mounted, tear down private networking, unmount the mounted namespace kinds,
and best-effort-unmount the base directory. -/
def down (env : DownEnv) (base_dir : String) :
    Except String Unit × List DownAction :=
  seqStep (kill_process env "warp-svc") fun _ =>
  seqStep (kill_process env "danted") fun _ =>
  seqStep (kill_process env "danted: io-chil") fun _ =>
  seqStep
    (if is_mounted env.fs base_dir NsType.Mount then clean_mount_namespace
     else (Except.ok (), []))
    fun _ =>
  seqStep
    (if is_mounted env.fs base_dir NsType.Net then
      cleanup_external_networking env
     else (Except.ok (), []))
    fun _ =>
  seqStep (cleanup_private_networking env base_dir) fun _ =>
  seqStep (unmount_namespaces env base_dir) fun _ =>
  (Except.ok (), [DownAction.umountBaseDir])

/-- C8: when no namespace kind is mounted (`status == None`), `down` completes
without error and performs no unmount operation on any of the four namespace
mount-point files (the hypotheses on signal delivery and on the absence of a
leftover host veth interface keep the unrelated best-effort steps from
failing). -/
theorem down_safe_when_nothing_mounted (env : DownEnv) (base_dir : String)
    (hmnt : ∀ t, is_mounted env.fs base_dir t = false)
    (hkill : ∀ pid, env.killOk pid = true)
    (hveth : "veth-warp" ∉ env.ifaceNames) :
    (down env base_dir).1 = Except.ok () ∧
    ∀ t, DownAction.unmountNs t ∉ (down env base_dir).2 := by
  have hany : env.ifaceNames.any (fun n => n = "veth-warp") = false := by
    rcases h : env.ifaceNames.any (fun n => n = "veth-warp") with _ | _
    · rfl
    · exfalso
      rw [List.any_eq_true] at h
      obtain ⟨x, hx, hpx⟩ := h
      rw [decide_eq_true_eq] at hpx
      subst hpx
      exact hveth hx
  rcases hw : env.findProc "warp-svc" with _ | pw <;>
    rcases hd : env.findProc "danted" with _ | pd <;>
      rcases hi : env.findProc "danted: io-chil" with _ | pi <;>
  simp [down, seqStep, kill_process, clean_mount_namespace,
    cleanup_external_networking, cleanup_private_networking,
    unmount_namespaces, unmountNsList, nsIter, hmnt, hany, hkill, hw, hd, hi]

/-- Witness for C8: a host with nothing mounted, no supervised processes and
no leftover veth interface. -/
theorem down_safe_when_nothing_mounted_witness :
    (down
      ⟨⟨fun _ => false, fun _ => Option.none, []⟩, fun _ => Option.none,
        fun _ => true, ["lo", "eth0"], Except.ok "eth0", true, fun _ => true⟩
      "/base").1 = Except.ok () ∧
    ∀ t,
      DownAction.unmountNs t ∉
        (down
          ⟨⟨fun _ => false, fun _ => Option.none, []⟩, fun _ => Option.none,
            fun _ => true, ["lo", "eth0"], Except.ok "eth0", true, fun _ => true⟩
          "/base").2 :=
  down_safe_when_nothing_mounted
    ⟨⟨fun _ => false, fun _ => Option.none, []⟩, fun _ => Option.none,
      fun _ => true, ["lo", "eth0"], Except.ok "eth0", true, fun _ => true⟩
    "/base" (fun t => by simp [is_mounted]) (fun _ => rfl) (by decide)

end Bubblewarp
